import Mathlib

/-!
Verification of the contact-submission flow of the Portfolio application
(`src/main.py`).  Strings are modelled as lists of characters; each Lean
definition transcribes the Python function of the same name.  The HTTP layer
(FastAPI routing, JSON parsing, CORS, static files) is treated as an external
collaborator: a request body is either malformed JSON or a record of the three
optional fields, and an `HTTPException` value models a raised
`fastapi.HTTPException`.
-/

namespace Portfolio

/-- Strings as lists of Unicode scalar values. -/
abbrev Str := List Char

/-- View a Lean string literal as a `Str`. -/
def strL (s : String) : Str := s.data

/-- Character class of the regex `[\x00-\x1F\x7F]` used by `sanitize_text`
(src/main.py line 102): the ASCII control characters. -/
def isCtrl (c : Char) : Bool :=
  decide (c.toNat ≤ 0x1F) || c.toNat == 0x7F

/-- The set of characters removed by Python's `str.strip()` with no argument:
exactly the characters `c` with `c.isspace()` true, i.e. code points
09-0D, 1C-20, 85, A0, 1680, 2000-200A, 2028, 2029, 202F, 205F, 3000. -/
def pyIsSpace (c : Char) : Bool :=
  decide (0x09 ≤ c.toNat ∧ c.toNat ≤ 0x0D) ||
  decide (0x1C ≤ c.toNat ∧ c.toNat ≤ 0x20) ||
  c.toNat == 0x85 || c.toNat == 0xA0 || c.toNat == 0x1680 ||
  decide (0x2000 ≤ c.toNat ∧ c.toNat ≤ 0x200A) ||
  c.toNat == 0x2028 || c.toNat == 0x2029 || c.toNat == 0x202F ||
  c.toNat == 0x205F || c.toNat == 0x3000

/-- Python's `str.strip()`: drop the longest run of whitespace characters from
each end.  `List.rdropWhile p l` is `(l.reverse.dropWhile p).reverse`. -/
def pyStrip (l : Str) : Str :=
  (l.dropWhile pyIsSpace).rdropWhile pyIsSpace

/-- `sanitize_text` (src/main.py lines 100-102):
`re.sub(r"[\x00-\x1F\x7F]", "", text).strip()`. -/
def sanitize_text (s : Str) : Str :=
  pyStrip (s.filter (fun c => !isCtrl c))

/-- `is_valid_email` (src/main.py lines 95-98): truth of
`re.match(r"^[^@]+@[^@]+\.[^@]+$", email)`.  Operationally: the input splits at
its first `'@'`; the part before must be nonempty, the part after must be free
of `'@'` and must contain a `'.'` that is neither its first nor its last
character.  (The `$` of `re.match` also accepts a match that stops just before
a final newline, but as `'\n'` lies in `[^@]` this does not change the accepted
set of strings.) -/
def is_valid_email (s : Str) : Bool :=
  let x := s.takeWhile (fun c => c != '@')
  match s.dropWhile (fun c => c != '@') with
  | [] => false
  | _ :: w => !x.isEmpty && w.all (fun c => c != '@') && (w.drop 1).dropLast.contains '.'

/-- Process-wide configuration (src/main.py lines 35-51), loaded once from the
environment at startup; the three mail values are stored already stripped. -/
structure Config where
  EMAIL_SENDER : Str
  EMAIL_PASSWORD : Str
  EMAIL_RECEIVER : Str
  MAX_NAME_LEN : Nat
  MAX_EMAIL_LEN : Nat
  MAX_MESSAGE_LEN : Nat
  APP_VERSION : Str
deriving DecidableEq

/-- A raised `fastapi.HTTPException` (status code and detail string). -/
structure HTTPException where
  status_code : Nat
  detail : Str
deriving DecidableEq

/-- `missing_envs` (src/main.py lines 104-112): the names of the empty
mail-configuration values, in declaration order. -/
def missing_envs (cfg : Config) : List Str :=
  (if cfg.EMAIL_SENDER.isEmpty then [strL "EMAIL_SENDER"] else []) ++
  (if cfg.EMAIL_PASSWORD.isEmpty then [strL "EMAIL_PASSWORD"] else []) ++
  (if cfg.EMAIL_RECEIVER.isEmpty then [strL "EMAIL_RECEIVER"] else [])

/-- The three validated contact-form fields returned by
`validate_contact_fields`. -/
structure ContactFields where
  nome : Str
  email : Str
  mensagem : Str
deriving DecidableEq

/-- A parsed JSON request body for `/contato/`: each key is either present
with a string value (`some`) or absent / bound to JSON null (`none`); Python's
`data.get(k)` yields `None` in both of the latter cases and `(... or "")`
turns it into the empty string. -/
structure ContactData where
  nome : Option Str
  email : Option Str
  mensagem : Option Str
deriving DecidableEq

/-- `validate_contact_fields` (src/main.py lines 152-168). -/
def validate_contact_fields (cfg : Config) (data : ContactData) :
    Except HTTPException ContactFields :=
  let nome := sanitize_text (data.nome.getD [])
  let email := sanitize_text (data.email.getD [])
  let mensagem := sanitize_text (data.mensagem.getD [])
  if nome.isEmpty || email.isEmpty || mensagem.isEmpty then
    .error ⟨400, strL "Por favor, preencha todos os campos."⟩
  else if nome.length > cfg.MAX_NAME_LEN then
    .error ⟨400, strL "Nome muito longo."⟩
  else if email.length > cfg.MAX_EMAIL_LEN then
    .error ⟨400, strL "Email muito longo."⟩
  else if mensagem.length > cfg.MAX_MESSAGE_LEN then
    .error ⟨400, strL "Mensagem muito longa."⟩
  else if !is_valid_email email then
    .error ⟨400, strL "Por favor, insira um e-mail válido."⟩
  else
    .ok ⟨nome, email, mensagem⟩

/-- An `email.message.EmailMessage` as built by `build_email`: the three
headers set there plus the body passed to `set_content`. -/
structure EmailMessage where
  From : Str
  To : Str
  Subject : Str
  body : Str
deriving DecidableEq

/-- `build_email` (src/main.py lines 114-127). -/
def build_email (cfg : Config) (nome email mensagem : Str) : EmailMessage :=
  ⟨cfg.EMAIL_SENDER,
   cfg.EMAIL_RECEIVER,
   strL "[Portfólio] Contato de " ++ nome,
   strL "Você recebeu uma nova mensagem pelo portfólio:\n\n" ++
     strL "Nome: " ++ nome ++ strL "\n" ++
     strL "E-mail: " ++ email ++ strL "\n\n" ++
     strL "Mensagem:\n" ++ mensagem ++ strL "\n"⟩

/-- Outcome of the underlying SMTP transaction performed by
`send_email_sync` (src/main.py lines 129-133): either it returns, or it raises
an exception whose text is carried here. -/
inductive SendOutcome where
  | success : SendOutcome
  | failure : Str → SendOutcome
deriving DecidableEq

/-- `send_email` (src/main.py lines 135-150): calls `send_email_sync`; any
exception is logged and replaced by
`HTTPException(500, "Erro ao enviar mensagem, tente novamente mais tarde.")`.
The exception's own text is used only for the server-side log, which is not
part of the returned value. -/
def send_email (outcome : SendOutcome) : Except HTTPException Unit :=
  match outcome with
  | .success => .ok ()
  | .failure _ =>
      .error ⟨500, strL "Erro ao enviar mensagem, tente novamente mais tarde."⟩

/-- Execution contexts on which the blocking SMTP call could run: the
request-handling (event-loop) thread, or a thread of the `EXECUTOR` pool. -/
inductive ExecVenue where
  | requestThread : ExecVenue
  | workerPool : ExecVenue
deriving DecidableEq

/-- The execution context that actually runs the blocking SMTP dispatch,
transcribed from the body of `send_email` (src/main.py lines 141-147): the
body calls `send_email_sync(em)` directly on the calling thread; the
`run_in_executor`/`EXECUTOR` offload appears only in comments
("Se quiser realmente offload, mude para: ...").  `EXECUTOR`
(src/main.py line 90) is referenced nowhere else except by the shutdown
handler's `EXECUTOR.shutdown(wait=False)`. -/
def dispatch_venue : ExecVenue := ExecVenue.requestThread

/-- A request body for `POST /contato/` as seen after `request.json()`:
either malformed JSON or a parsed object. -/
inductive RequestBody where
  | invalid : RequestBody
  | json : ContactData → RequestBody
deriving DecidableEq

deriving instance DecidableEq for Except

/-- What one call of the `contato` handler produces: the HTTP response
(success payload or raised `HTTPException`) together with the list of emails
for which a dispatch (`send_email`) was attempted. -/
structure ContatoResult where
  response : Except HTTPException Str
  attempts : List EmailMessage
deriving DecidableEq

/-- `contato` (src/main.py lines 204-227). -/
def contato (cfg : Config) (body : RequestBody) (outcome : SendOutcome) :
    ContatoResult :=
  match body with
  | .invalid => ⟨.error ⟨400, strL "JSON inválido."⟩, []⟩
  | .json data =>
    match validate_contact_fields cfg data with
    | .error e => ⟨.error e, []⟩
    | .ok campos =>
      match missing_envs cfg with
      | [] =>
        let em := build_email cfg campos.nome campos.email campos.mensagem
        match send_email outcome with
        | .ok _ => ⟨.ok (strL "Mensagem enviada com sucesso!"), [em]⟩
        | .error e => ⟨.error e, [em]⟩
      | ms =>
        ⟨.error ⟨500, strL "Erro de configuração: faltando " ++
            List.intercalate (strL ", ") ms⟩, []⟩

/-- The JSON object returned by `GET /healthz`. -/
structure HealthzResponse where
  status : Str
  missing_envs : List Str
  app_version : Str
deriving DecidableEq

/-- `healthz` (src/main.py lines 192-202). -/
def healthz (cfg : Config) : HealthzResponse :=
  ⟨strL "ok", missing_envs cfg, cfg.APP_VERSION⟩

/-! ### Helper lemmas -/

theorem mem_missing_envs (cfg : Config) (n : Str) :
    n ∈ missing_envs cfg ↔
      ((n = strL "EMAIL_SENDER" ∧ cfg.EMAIL_SENDER = []) ∨
       (n = strL "EMAIL_PASSWORD" ∧ cfg.EMAIL_PASSWORD = []) ∨
       (n = strL "EMAIL_RECEIVER" ∧ cfg.EMAIL_RECEIVER = [])) := by
  unfold missing_envs
  split_ifs with h1 h2 h3 <;>
    simp_all [List.isEmpty_iff, List.mem_append]

theorem missing_envs_eq_nil (cfg : Config)
    (hs : cfg.EMAIL_SENDER ≠ []) (hp : cfg.EMAIL_PASSWORD ≠ [])
    (hr : cfg.EMAIL_RECEIVER ≠ []) : missing_envs cfg = [] := by
  unfold missing_envs
  split_ifs with h1 h2 h3 <;> simp_all [List.isEmpty_iff]

theorem rdropWhile_append_rtakeWhile (p : Char → Bool) (l : Str) :
    l.rdropWhile p ++ l.rtakeWhile p = l := by
  unfold List.rdropWhile List.rtakeWhile
  rw [← List.reverse_append, List.takeWhile_append_dropWhile, List.reverse_reverse]

theorem dropWhile_eq_cons_head (p : Char → Bool) :
    ∀ (l : Str) (c : Char) (rest : Str),
      l.dropWhile p = c :: rest → p c = false := by
  intro l
  induction l with
  | nil => intro c rest h; simp [List.dropWhile] at h
  | cons a t ih =>
      intro c rest h
      rw [List.dropWhile_cons] at h
      by_cases hpa : p a = true
      · rw [if_pos hpa] at h
        exact ih c rest h
      · rw [if_neg hpa] at h
        injection h with h1 _
        subst h1
        simpa using hpa

theorem pyStrip_decomp (l : Str) :
    ∃ pre post : Str, l = pre ++ pyStrip l ++ post ∧
      (∀ c ∈ pre, pyIsSpace c = true) ∧ (∀ c ∈ post, pyIsSpace c = true) := by
  refine ⟨l.takeWhile pyIsSpace, (l.dropWhile pyIsSpace).rtakeWhile pyIsSpace,
    ?_, ?_, ?_⟩
  · have h1 : l.takeWhile pyIsSpace ++ l.dropWhile pyIsSpace = l :=
      List.takeWhile_append_dropWhile pyIsSpace l
    have h2 := rdropWhile_append_rtakeWhile pyIsSpace (l.dropWhile pyIsSpace)
    show l = l.takeWhile pyIsSpace ++
      (l.dropWhile pyIsSpace).rdropWhile pyIsSpace ++
      (l.dropWhile pyIsSpace).rtakeWhile pyIsSpace
    rw [List.append_assoc, h2, h1]
  · exact fun c hc => List.mem_takeWhile_imp hc
  · intro c hc
    unfold List.rtakeWhile at hc
    rw [List.mem_reverse] at hc
    exact List.mem_takeWhile_imp hc

theorem pyStrip_sublist (l : Str) : (pyStrip l).Sublist l := by
  obtain ⟨pre, post, h, -, -⟩ := pyStrip_decomp l
  conv_rhs => rw [h]
  exact (List.sublist_append_right pre _).trans (List.sublist_append_left _ post)

theorem sanitize_sublist_filter (s : Str) :
    (sanitize_text s).Sublist (s.filter (fun c => !isCtrl c)) :=
  pyStrip_sublist (s.filter (fun c => !isCtrl c))

theorem mem_sanitize_not_ctrl (s : Str) (c : Char)
    (hc : c ∈ sanitize_text s) : isCtrl c = false := by
  have h1 : c ∈ s.filter (fun c => !isCtrl c) :=
    (sanitize_sublist_filter s).subset hc
  have h2 := List.of_mem_filter h1
  simpa using h2

theorem pyStrip_head (l : Str) (c : Char)
    (h : (pyStrip l).head? = some c) : pyIsSpace c = false := by
  obtain ⟨t, ht⟩ := List.rdropWhile_prefix pyIsSpace (l.dropWhile pyIsSpace)
  cases hB : pyStrip l with
  | nil => rw [hB] at h; simp at h
  | cons b bs =>
      rw [hB] at h
      simp only [List.head?_cons, Option.some.injEq] at h
      rw [show (l.dropWhile pyIsSpace).rdropWhile pyIsSpace = pyStrip l from rfl,
        hB] at ht
      have hA : l.dropWhile pyIsSpace = b :: (bs ++ t) := by
        rw [← ht]; simp
      rw [← h]
      exact dropWhile_eq_cons_head pyIsSpace l b (bs ++ t) hA

theorem pyStrip_getLast (l : Str) (c : Char)
    (h : (pyStrip l).getLast? = some c) : pyIsSpace c = false := by
  have hne : pyStrip l ≠ [] := by
    intro hh; rw [hh] at h; simp at h
  have h2 := List.rdropWhile_last_not pyIsSpace (l.dropWhile pyIsSpace) hne
  have h3 : (pyStrip l).getLast? = some ((pyStrip l).getLast hne) :=
    List.getLast?_eq_getLast _ hne
  rw [h3] at h
  injection h with h4
  rw [← h4]
  simpa using h2

/-! ### Claim theorems -/

/-- Claim C6: sanitization removes every ASCII control character (0x00-0x1F
and 0x7F) and trims surrounding whitespace: no control character survives, the
output is a subsequence of the input, and the control-filtered input is the
output surrounded by whitespace only, with the output itself neither starting
nor ending in whitespace.  (As a Lean function `sanitize_text` is total, so it
never fails.) -/
theorem sanitize_text_spec (s : Str) :
    (∀ c ∈ sanitize_text s, ¬(c.toNat ≤ 0x1F ∨ c.toNat = 0x7F)) ∧
    (sanitize_text s).Sublist s ∧
    (∃ pre post : Str,
        s.filter (fun c => !isCtrl c) = pre ++ sanitize_text s ++ post ∧
        (∀ c ∈ pre, pyIsSpace c = true) ∧ (∀ c ∈ post, pyIsSpace c = true)) ∧
    (∀ c, (sanitize_text s).head? = some c → pyIsSpace c = false) ∧
    (∀ c, (sanitize_text s).getLast? = some c → pyIsSpace c = false) := by
  refine ⟨?_, ?_, ?_, ?_, ?_⟩
  · intro c hc
    have h := mem_sanitize_not_ctrl s c hc
    simp only [isCtrl, Bool.or_eq_false_iff, decide_eq_false_iff_not,
      beq_eq_false_iff_ne, ne_eq] at h
    rintro (h1 | h2)
    · exact h.1 h1
    · exact h.2 h2
  · exact (sanitize_sublist_filter s).trans (List.filter_sublist s)
  · exact pyStrip_decomp (s.filter (fun c => !isCtrl c))
  · exact fun c hc => pyStrip_head (s.filter (fun c => !isCtrl c)) c hc
  · exact fun c hc => pyStrip_getLast (s.filter (fun c => !isCtrl c)) c hc

/-- Claim C7: sanitization is idempotent — sanitizing twice equals sanitizing
once. -/
theorem sanitize_text_idempotent (s : Str) :
    sanitize_text (sanitize_text s) = sanitize_text s := by
  have hfilter : (sanitize_text s).filter (fun c => !isCtrl c) = sanitize_text s :=
    List.filter_eq_self.mpr (fun c hc => by
      simp [mem_sanitize_not_ctrl s c hc])
  show pyStrip ((sanitize_text s).filter (fun c => !isCtrl c)) = sanitize_text s
  rw [hfilter]
  have hd : (sanitize_text s).dropWhile pyIsSpace = sanitize_text s := by
    cases hX : sanitize_text s with
    | nil => simp
    | cons c t =>
        have hc : pyIsSpace c = false := by
          refine pyStrip_head (s.filter (fun c => !isCtrl c)) c ?_
          rw [show pyStrip (s.filter (fun c => !isCtrl c)) = sanitize_text s
            from rfl, hX]
          rfl
        simp [List.dropWhile_cons, hc]
  show ((sanitize_text s).dropWhile pyIsSpace).rdropWhile pyIsSpace =
    sanitize_text s
  rw [hd, List.rdropWhile_eq_self_iff]
  intro hl
  have h3 : (sanitize_text s).getLast? =
      some ((sanitize_text s).getLast hl) :=
    List.getLast?_eq_getLast _ hl
  have h4 := pyStrip_getLast (s.filter (fun c => !isCtrl c)) _ h3
  simp [h4]

/-- Claim C9: every call of the health endpoint returns, without raising, an
object with fixed status "ok", the same missing-configuration list computed by
`missing_envs` — truthful for the current configuration in the sense that a
name is listed exactly when its configured value is empty — and the running
version string.  (In the embedding `healthz` is a total function, so it cannot
raise.) -/
theorem healthz_spec (cfg : Config) :
    (healthz cfg).status = strL "ok" ∧
    (healthz cfg).missing_envs = missing_envs cfg ∧
    (healthz cfg).app_version = cfg.APP_VERSION ∧
    (∀ n : Str, n ∈ (healthz cfg).missing_envs ↔
      ((n = strL "EMAIL_SENDER" ∧ cfg.EMAIL_SENDER = []) ∨
       (n = strL "EMAIL_PASSWORD" ∧ cfg.EMAIL_PASSWORD = []) ∨
       (n = strL "EMAIL_RECEIVER" ∧ cfg.EMAIL_RECEIVER = []))) :=
  ⟨rfl, rfl, rfl, fun n => mem_missing_envs cfg n⟩

/-- Claim C8, counterexample: the claim says the blocking mail-dispatch call is
always invoked through the bounded worker pool; in the code the dispatch venue
is the request-handling thread, not the worker pool. -/
theorem dispatch_venue_ne_workerPool :
    dispatch_venue ≠ ExecVenue.workerPool := by
  decide

/-- Claim C8, amended: the blocking mail-dispatch call runs synchronously on
the request-handling thread; the worker pool is created but never used for
dispatch. -/
theorem dispatch_venue_eq_requestThread :
    dispatch_venue = ExecVenue.requestThread := rfl

theorem takeWhile_append_cons (p : Char → Bool) (x : Str) (a : Char) (r : Str)
    (hx : ∀ c ∈ x, p c = true) (ha : p a = false) :
    (x ++ a :: r).takeWhile p = x ∧ (x ++ a :: r).dropWhile p = a :: r := by
  induction x with
  | nil =>
      constructor
      · rw [List.nil_append, List.takeWhile_cons, ha]; simp
      · rw [List.nil_append, List.dropWhile_cons, ha]; simp
  | cons b bs ih =>
      have hb : p b = true := hx b (by simp)
      have ih' := ih (fun c hc => hx c (by simp [hc]))
      constructor
      · rw [List.cons_append, List.takeWhile_cons, hb]
        simp [ih'.1]
      · rw [List.cons_append, List.dropWhile_cons, hb]
        simp [ih'.2]

/-- Claim C5: the email-shape check accepts a string exactly when it
decomposes as a nonempty run of non-'@' characters, then '@', then a nonempty
run of non-'@' characters, then a literal '.', then a nonempty run of non-'@'
characters.  (Consecutive dots in the domain are therefore accepted — take
the middle run to contain the extra dots — and a string with no dot after the
'@' admits no such decomposition and is rejected.) -/
theorem is_valid_email_iff (s : Str) :
    is_valid_email s = true ↔
      ∃ x y z : Str, s = x ++ '@' :: (y ++ '.' :: z) ∧
        x ≠ [] ∧ y ≠ [] ∧ z ≠ [] ∧
        (∀ c ∈ x, c ≠ '@') ∧ (∀ c ∈ y, c ≠ '@') ∧ (∀ c ∈ z, c ≠ '@') := by
  constructor
  · intro h
    unfold is_valid_email at h
    cases hdw : s.dropWhile (fun c => c != '@') with
    | nil => rw [hdw] at h; simp at h
    | cons a w =>
        rw [hdw] at h
        simp only [Bool.and_eq_true, Bool.not_eq_true', List.all_eq_true,
          bne_iff_ne, ne_eq] at h
        obtain ⟨⟨hx, hall⟩, hdot⟩ := h
        have h0 : s.takeWhile (fun c => c != '@') ++
            s.dropWhile (fun c => c != '@') = s :=
          List.takeWhile_append_dropWhile _ s
        rw [hdw] at h0
        have haAt : a = '@' := by
          have := dropWhile_eq_cons_head (fun c => c != '@') s a w hdw
          simpa using this
        have hdot' : ('.' : Char) ∈ (w.drop 1).dropLast := by
          simpa using hdot
        cases hw : w with
        | nil => rw [hw] at hdot'; simp at hdot'
        | cons w0 w1 =>
            rw [hw] at hdot'
            simp only [List.drop_succ_cons, List.drop_zero] at hdot'
            rcases List.eq_nil_or_concat w1 with hw1 | ⟨w1', ℓ, hw1⟩
            · rw [hw1] at hdot'; simp at hdot'
            · rw [List.concat_eq_append] at hw1
              rw [hw1, List.dropLast_concat] at hdot'
              obtain ⟨y', z', hsplit⟩ := List.append_of_mem hdot'
              rw [hsplit] at hw1
              refine ⟨s.takeWhile (fun c => c != '@'), w0 :: y', z' ++ [ℓ],
                ?_, ?_, by simp, by simp, ?_, ?_, ?_⟩
              · conv_lhs => rw [← h0]
                rw [haAt, hw, hw1]
                simp
              · intro hh
                rw [hh] at hx
                simp at hx
              · intro c hc
                have := List.mem_takeWhile_imp hc
                simpa using this
              · intro c hc
                apply hall
                rw [hw, hw1]
                simp only [List.mem_cons, List.mem_append,
                  List.mem_singleton] at hc ⊢
                tauto
              · intro c hc
                apply hall
                rw [hw, hw1]
                simp only [List.mem_cons, List.mem_append,
                  List.mem_singleton] at hc ⊢
                tauto
  · rintro ⟨x, y, z, rfl, hx, hy, hz, hxn, hyn, hzn⟩
    have hx' : ∀ c ∈ x, (fun c => c != '@') c = true := fun c hc => by
      simpa using hxn c hc
    have hAt : (fun c => c != '@') '@' = false := by simp
    obtain ⟨ht, hd⟩ := takeWhile_append_cons (fun c => c != '@') x '@'
      (y ++ '.' :: z) hx' hAt
    unfold is_valid_email
    simp only [hd, ht]
    simp only [Bool.and_eq_true, Bool.not_eq_true', List.all_eq_true,
      bne_iff_ne, ne_eq]
    refine ⟨⟨?_, ?_⟩, ?_⟩
    · cases x with
      | nil => exact absurd rfl hx
      | cons _ _ => rfl
    · intro c hc
      rcases List.mem_append.mp hc with h1 | h1
      · exact hyn c h1
      · rcases List.mem_cons.mp h1 with h2 | h2
        · rw [h2]; decide
        · exact hzn c h2
    · cases hyy : y with
      | nil => exact absurd hyy hy
      | cons y0 y' =>
          rcases List.eq_nil_or_concat z with hzz | ⟨z', ℓ, hzz⟩
          · exact absurd hzz hz
          · rw [hzz]
            simp only [List.cons_append, List.drop_succ_cons, List.drop_zero,
              List.concat_eq_append]
            rw [show y' ++ '.' :: (z' ++ [ℓ]) = (y' ++ '.' :: z') ++ [ℓ] by
              simp]
            rw [List.dropLast_concat]
            simp

/-- Claim C4: for every triple of input fields, validation rejects with a 400
error exactly when some field is empty after sanitization, or a sanitized
field exceeds its configured maximum length, or the sanitized email fails the
shape check; a field of length exactly the maximum passes its length check;
on success the three cleaned fields are returned, and each failure carries the
specific reason of the first failed rule — no partial success. -/
theorem validate_contact_fields_spec (cfg : Config) (a b c : Str) :
    ((∃ err, validate_contact_fields cfg ⟨some a, some b, some c⟩ =
        .error err ∧ err.status_code = 400) ↔
      (sanitize_text a = [] ∨ sanitize_text b = [] ∨ sanitize_text c = [] ∨
       (sanitize_text a).length > cfg.MAX_NAME_LEN ∨
       (sanitize_text b).length > cfg.MAX_EMAIL_LEN ∨
       (sanitize_text c).length > cfg.MAX_MESSAGE_LEN ∨
       is_valid_email (sanitize_text b) = false)) ∧
    (∀ f, validate_contact_fields cfg ⟨some a, some b, some c⟩ = .ok f →
      f = ⟨sanitize_text a, sanitize_text b, sanitize_text c⟩) ∧
    ((sanitize_text a).length ≤ cfg.MAX_NAME_LEN →
      validate_contact_fields cfg ⟨some a, some b, some c⟩ ≠
        .error ⟨400, strL "Nome muito longo."⟩) ∧
    ((sanitize_text b).length ≤ cfg.MAX_EMAIL_LEN →
      validate_contact_fields cfg ⟨some a, some b, some c⟩ ≠
        .error ⟨400, strL "Email muito longo."⟩) ∧
    ((sanitize_text c).length ≤ cfg.MAX_MESSAGE_LEN →
      validate_contact_fields cfg ⟨some a, some b, some c⟩ ≠
        .error ⟨400, strL "Mensagem muito longa."⟩) ∧
    (validate_contact_fields cfg ⟨some a, some b, some c⟩ =
        .error ⟨400, strL "Por favor, preencha todos os campos."⟩ ↔
      (sanitize_text a = [] ∨ sanitize_text b = [] ∨ sanitize_text c = [])) ∧
    (validate_contact_fields cfg ⟨some a, some b, some c⟩ =
        .error ⟨400, strL "Nome muito longo."⟩ ↔
      (¬(sanitize_text a = [] ∨ sanitize_text b = [] ∨ sanitize_text c = []) ∧
       (sanitize_text a).length > cfg.MAX_NAME_LEN)) ∧
    (validate_contact_fields cfg ⟨some a, some b, some c⟩ =
        .error ⟨400, strL "Email muito longo."⟩ ↔
      (¬(sanitize_text a = [] ∨ sanitize_text b = [] ∨ sanitize_text c = []) ∧
       (sanitize_text a).length ≤ cfg.MAX_NAME_LEN ∧
       (sanitize_text b).length > cfg.MAX_EMAIL_LEN)) ∧
    (validate_contact_fields cfg ⟨some a, some b, some c⟩ =
        .error ⟨400, strL "Mensagem muito longa."⟩ ↔
      (¬(sanitize_text a = [] ∨ sanitize_text b = [] ∨ sanitize_text c = []) ∧
       (sanitize_text a).length ≤ cfg.MAX_NAME_LEN ∧
       (sanitize_text b).length ≤ cfg.MAX_EMAIL_LEN ∧
       (sanitize_text c).length > cfg.MAX_MESSAGE_LEN)) ∧
    (validate_contact_fields cfg ⟨some a, some b, some c⟩ =
        .error ⟨400, strL "Por favor, insira um e-mail válido."⟩ ↔
      (¬(sanitize_text a = [] ∨ sanitize_text b = [] ∨ sanitize_text c = []) ∧
       (sanitize_text a).length ≤ cfg.MAX_NAME_LEN ∧
       (sanitize_text b).length ≤ cfg.MAX_EMAIL_LEN ∧
       (sanitize_text c).length ≤ cfg.MAX_MESSAGE_LEN ∧
       is_valid_email (sanitize_text b) = false)) := by
  have d1 : strL "Por favor, preencha todos os campos." ≠
      strL "Nome muito longo." := by decide
  have d2 : strL "Por favor, preencha todos os campos." ≠
      strL "Email muito longo." := by decide
  have d3 : strL "Por favor, preencha todos os campos." ≠
      strL "Mensagem muito longa." := by decide
  have d4 : strL "Por favor, preencha todos os campos." ≠
      strL "Por favor, insira um e-mail válido." := by decide
  have d5 : strL "Nome muito longo." ≠ strL "Email muito longo." := by decide
  have d6 : strL "Nome muito longo." ≠ strL "Mensagem muito longa." := by
    decide
  have d7 : strL "Nome muito longo." ≠
      strL "Por favor, insira um e-mail válido." := by decide
  have d8 : strL "Email muito longo." ≠ strL "Mensagem muito longa." := by
    decide
  have d9 : strL "Email muito longo." ≠
      strL "Por favor, insira um e-mail válido." := by decide
  have d10 : strL "Mensagem muito longa." ≠
      strL "Por favor, insira um e-mail válido." := by decide
  have errNe : ∀ (u v : Str), u ≠ v →
      (Except.error ⟨400, u⟩ : Except HTTPException ContactFields) ≠
        Except.error ⟨400, v⟩ := by
    intro u v huv h
    apply huv
    injection h with h2
    injection h2 with h3 h4
  have hAiff : (List.isEmpty (sanitize_text a) ||
        List.isEmpty (sanitize_text b) ||
        List.isEmpty (sanitize_text c)) = true ↔
      (sanitize_text a = [] ∨ sanitize_text b = [] ∨ sanitize_text c = []) := by
    simp [List.isEmpty_iff, or_assoc]
  simp only [validate_contact_fields, Option.getD_some]
  split_ifs with h1 h2 h3 h4 h5
  · -- some field empty after sanitization
    have hA := hAiff.mp h1
    exact ⟨iff_of_true ⟨⟨400, strL "Por favor, preencha todos os campos."⟩,
        rfl, rfl⟩ (by tauto),
      fun f hf => by simp at hf,
      fun _ => errNe _ _ d1, fun _ => errNe _ _ d2, fun _ => errNe _ _ d3,
      iff_of_true rfl hA,
      iff_of_false (errNe _ _ d1) (fun hcon => hcon.1 hA),
      iff_of_false (errNe _ _ d2) (fun hcon => hcon.1 hA),
      iff_of_false (errNe _ _ d3) (fun hcon => hcon.1 hA),
      iff_of_false (errNe _ _ d4) (fun hcon => hcon.1 hA)⟩
  · -- name too long
    have hA' : ¬(sanitize_text a = [] ∨ sanitize_text b = [] ∨
        sanitize_text c = []) := fun hA => h1 (hAiff.mpr hA)
    exact ⟨iff_of_true ⟨⟨400, strL "Nome muito longo."⟩, rfl, rfl⟩
        (Or.inr (Or.inr (Or.inr (Or.inl h2)))),
      fun f hf => by simp at hf,
      fun hle => absurd h2 (not_lt.mpr hle),
      fun _ => errNe _ _ d5, fun _ => errNe _ _ d6,
      iff_of_false (errNe _ _ (Ne.symm d1)) hA',
      iff_of_true rfl ⟨hA', h2⟩,
      iff_of_false (errNe _ _ d5)
        (fun hcon => absurd h2 (not_lt.mpr hcon.2.1)),
      iff_of_false (errNe _ _ d6)
        (fun hcon => absurd h2 (not_lt.mpr hcon.2.1)),
      iff_of_false (errNe _ _ d7)
        (fun hcon => absurd h2 (not_lt.mpr hcon.2.1))⟩
  · -- email too long
    have hA' : ¬(sanitize_text a = [] ∨ sanitize_text b = [] ∨
        sanitize_text c = []) := fun hA => h1 (hAiff.mpr hA)
    exact ⟨iff_of_true ⟨⟨400, strL "Email muito longo."⟩, rfl, rfl⟩
        (Or.inr (Or.inr (Or.inr (Or.inr (Or.inl h3))))),
      fun f hf => by simp at hf,
      fun _ => errNe _ _ (Ne.symm d5),
      fun hle => absurd h3 (not_lt.mpr hle),
      fun _ => errNe _ _ d8,
      iff_of_false (errNe _ _ (Ne.symm d2)) hA',
      iff_of_false (errNe _ _ (Ne.symm d5)) (fun hcon => absurd hcon.2 h2),
      iff_of_true rfl ⟨hA', le_of_not_lt h2, h3⟩,
      iff_of_false (errNe _ _ d8)
        (fun hcon => absurd h3 (not_lt.mpr hcon.2.2.1)),
      iff_of_false (errNe _ _ d9)
        (fun hcon => absurd h3 (not_lt.mpr hcon.2.2.1))⟩
  · -- message too long
    have hA' : ¬(sanitize_text a = [] ∨ sanitize_text b = [] ∨
        sanitize_text c = []) := fun hA => h1 (hAiff.mpr hA)
    exact ⟨iff_of_true ⟨⟨400, strL "Mensagem muito longa."⟩, rfl, rfl⟩
        (Or.inr (Or.inr (Or.inr (Or.inr (Or.inr (Or.inl h4)))))),
      fun f hf => by simp at hf,
      fun _ => errNe _ _ (Ne.symm d6),
      fun _ => errNe _ _ (Ne.symm d8),
      fun hle => absurd h4 (not_lt.mpr hle),
      iff_of_false (errNe _ _ (Ne.symm d3)) hA',
      iff_of_false (errNe _ _ (Ne.symm d6)) (fun hcon => absurd hcon.2 h2),
      iff_of_false (errNe _ _ (Ne.symm d8)) (fun hcon => absurd hcon.2.2 h3),
      iff_of_true rfl ⟨hA', le_of_not_lt h2, le_of_not_lt h3, h4⟩,
      iff_of_false (errNe _ _ d10)
        (fun hcon => absurd h4 (not_lt.mpr hcon.2.2.2.1))⟩
  · -- invalid email shape
    have hA' : ¬(sanitize_text a = [] ∨ sanitize_text b = [] ∨
        sanitize_text c = []) := fun hA => h1 (hAiff.mpr hA)
    have h5' : is_valid_email (sanitize_text b) = false := by simpa using h5
    exact ⟨iff_of_true ⟨⟨400, strL "Por favor, insira um e-mail válido."⟩,
        rfl, rfl⟩
        (Or.inr (Or.inr (Or.inr (Or.inr (Or.inr (Or.inr h5')))))),
      fun f hf => by simp at hf,
      fun _ => errNe _ _ (Ne.symm d7),
      fun _ => errNe _ _ (Ne.symm d9),
      fun _ => errNe _ _ (Ne.symm d10),
      iff_of_false (errNe _ _ (Ne.symm d4)) hA',
      iff_of_false (errNe _ _ (Ne.symm d7)) (fun hcon => absurd hcon.2 h2),
      iff_of_false (errNe _ _ (Ne.symm d9)) (fun hcon => absurd hcon.2.2 h3),
      iff_of_false (errNe _ _ (Ne.symm d10))
        (fun hcon => absurd hcon.2.2.2 h4),
      iff_of_true rfl
        ⟨hA', le_of_not_lt h2, le_of_not_lt h3, le_of_not_lt h4, h5'⟩⟩
  · -- all rules pass
    have hA' : ¬(sanitize_text a = [] ∨ sanitize_text b = [] ∨
        sanitize_text c = []) := fun hA => h1 (hAiff.mpr hA)
    have h5' : is_valid_email (sanitize_text b) = true := by simpa using h5
    refine ⟨iff_of_false (fun hcon => by
        obtain ⟨err, heq, -⟩ := hcon
        simp at heq) ?_,
      fun f hf => by injection hf with h'; exact h'.symm,
      fun _ h => by simp at h,
      fun _ h => by simp at h,
      fun _ h => by simp at h,
      iff_of_false (fun h => by simp at h) hA',
      iff_of_false (fun h => by simp at h) (fun hcon => h2 hcon.2),
      iff_of_false (fun h => by simp at h) (fun hcon => h3 hcon.2.2),
      iff_of_false (fun h => by simp at h) (fun hcon => h4 hcon.2.2.2),
      iff_of_false (fun h => by simp at h)
        (fun hcon => absurd hcon.2.2.2.2 (by simp [h5']))⟩
    rintro (h | h | h | h | h | h | h)
    · exact hA' (Or.inl h)
    · exact hA' (Or.inr (Or.inl h))
    · exact hA' (Or.inr (Or.inr h))
    · exact h2 h
    · exact h3 h
    · exact h4 h
    · exact absurd h (by simp [h5'])

/-- Concrete test submission `{nome:"Ana", email:"ana@example.com",
mensagem:"Olá"}`. -/
def anaData : ContactData :=
  ⟨some (strL "Ana"), some (strL "ana@example.com"), some (strL "Olá")⟩

/-- The validated fields of `anaData`. -/
def anaCampos : ContactFields :=
  ⟨strL "Ana", strL "ana@example.com", strL "Olá"⟩

/-- A configuration with `EMAIL_SENDER` and `EMAIL_RECEIVER` empty and the
default length limits. -/
def cfgMissing : Config :=
  ⟨[], strL "segredo", [], 80, 120, 5000, strL "1.1.0"⟩

/-- A complete configuration with the default length limits. -/
def cfgFull : Config :=
  ⟨strL "sender@example.com", strL "segredo", strL "receiver@example.com",
   80, 120, 5000, strL "1.1.0"⟩

/-- Claim C10: a request body in which a field key is absent or bound to JSON
null is validated exactly like one carrying the explicit empty string there,
and is rejected with the single 400 fill-all-fields error. -/
theorem validate_contact_fields_none (cfg : Config) (o₁ o₂ o₃ : Option Str) :
    (validate_contact_fields cfg ⟨none, o₂, o₃⟩ =
        validate_contact_fields cfg ⟨some [], o₂, o₃⟩ ∧
     validate_contact_fields cfg ⟨none, o₂, o₃⟩ =
        .error ⟨400, strL "Por favor, preencha todos os campos."⟩) ∧
    (validate_contact_fields cfg ⟨o₁, none, o₃⟩ =
        validate_contact_fields cfg ⟨o₁, some [], o₃⟩ ∧
     validate_contact_fields cfg ⟨o₁, none, o₃⟩ =
        .error ⟨400, strL "Por favor, preencha todos os campos."⟩) ∧
    (validate_contact_fields cfg ⟨o₁, o₂, none⟩ =
        validate_contact_fields cfg ⟨o₁, o₂, some []⟩ ∧
     validate_contact_fields cfg ⟨o₁, o₂, none⟩ =
        .error ⟨400, strL "Por favor, preencha todos os campos."⟩) := by
  refine ⟨⟨rfl, ?_⟩, ⟨rfl, ?_⟩, ⟨rfl, ?_⟩⟩ <;>
    simp [validate_contact_fields, sanitize_text, pyStrip]

/-- Claim C2: a submission that passes field validation but misses some
configuration value returns a 500 whose detail is the fixed prefix followed by
the comma-joined missing names — exactly the names whose configured values are
empty — and no email is built or dispatched. -/
theorem contato_missing_envs_500 (cfg : Config) (data : ContactData)
    (campos : ContactFields) (outcome : SendOutcome)
    (hv : validate_contact_fields cfg data = .ok campos)
    (hm : missing_envs cfg ≠ []) :
    (contato cfg (.json data) outcome).response =
      .error ⟨500, strL "Erro de configuração: faltando " ++
        List.intercalate (strL ", ") (missing_envs cfg)⟩ ∧
    (contato cfg (.json data) outcome).attempts = [] ∧
    (∀ n : Str, n ∈ missing_envs cfg ↔
      ((n = strL "EMAIL_SENDER" ∧ cfg.EMAIL_SENDER = []) ∨
       (n = strL "EMAIL_PASSWORD" ∧ cfg.EMAIL_PASSWORD = []) ∨
       (n = strL "EMAIL_RECEIVER" ∧ cfg.EMAIL_RECEIVER = []))) := by
  refine ⟨?_, ?_, fun n => mem_missing_envs cfg n⟩ <;>
  · cases h : missing_envs cfg with
    | nil => exact absurd h hm
    | cons m ms => simp [contato, hv, h]

/-- Claim C2 witness: with Ana's valid submission and a configuration missing
the sender and receiver addresses, the response is the 500 listing exactly
those two names and no dispatch is attempted. -/
theorem contato_missing_envs_500_witness :
    validate_contact_fields cfgMissing anaData = Except.ok anaCampos ∧
    missing_envs cfgMissing ≠ [] ∧
    (contato cfgMissing (RequestBody.json anaData) SendOutcome.success).response =
      Except.error ⟨500,
        strL "Erro de configuração: faltando EMAIL_SENDER, EMAIL_RECEIVER"⟩ ∧
    (contato cfgMissing (RequestBody.json anaData) SendOutcome.success).attempts
      = [] := by
  have h := contato_missing_envs_500 cfgMissing anaData anaCampos
    SendOutcome.success (by decide) (by decide)
  exact ⟨by decide, by decide, h.1.trans (by decide), h.2.1⟩

/-- Claim C3: when the SMTP transaction fails — whatever the exception text —
the caller receives a 500 with the one fixed generic retry-later detail, and
the whole response is independent of the exception text, so the underlying
error text never reaches the caller. -/
theorem contato_send_failure_generic (cfg : Config) (data : ContactData)
    (campos : ContactFields) (msg : Str)
    (hv : validate_contact_fields cfg data = .ok campos)
    (hm : missing_envs cfg = []) :
    send_email (.failure msg) =
      .error ⟨500, strL "Erro ao enviar mensagem, tente novamente mais tarde."⟩ ∧
    (contato cfg (.json data) (.failure msg)).response =
      .error ⟨500, strL "Erro ao enviar mensagem, tente novamente mais tarde."⟩ ∧
    (∀ msg' : Str, contato cfg (.json data) (.failure msg') =
      contato cfg (.json data) (.failure msg)) := by
  refine ⟨rfl, ?_, fun msg' => ?_⟩ <;>
    simp [contato, hv, hm, send_email]

/-- Claim C3 witness: a simulated authentication failure with Ana's submission
and a complete configuration yields the generic 500. -/
theorem contato_send_failure_generic_witness :
    validate_contact_fields cfgFull anaData = Except.ok anaCampos ∧
    missing_envs cfgFull = [] ∧
    (contato cfgFull (RequestBody.json anaData)
        (SendOutcome.failure (strL "SMTPAuthenticationError"))).response =
      Except.error ⟨500,
        strL "Erro ao enviar mensagem, tente novamente mais tarde."⟩ := by
  have h := contato_send_failure_generic cfgFull anaData anaCampos
    (strL "SMTPAuthenticationError") (by decide) (by decide)
  exact ⟨by decide, by decide, h.2.1⟩

/-- Claim C1: for every submission whose fields validate and with all three
configuration values non-empty, exactly one dispatch is attempted, with the
built message whose subject embeds the sanitized name and whose body contains
the sanitized name, email and message. -/
theorem contato_valid_dispatches_once (cfg : Config) (data : ContactData)
    (campos : ContactFields) (outcome : SendOutcome)
    (hv : validate_contact_fields cfg data = .ok campos)
    (hs : cfg.EMAIL_SENDER ≠ []) (hp : cfg.EMAIL_PASSWORD ≠ [])
    (hr : cfg.EMAIL_RECEIVER ≠ []) :
    (contato cfg (.json data) outcome).attempts =
      [build_email cfg campos.nome campos.email campos.mensagem] ∧
    (build_email cfg campos.nome campos.email campos.mensagem).Subject =
      strL "[Portfólio] Contato de " ++ campos.nome ∧
    campos.nome <:+:
      (build_email cfg campos.nome campos.email campos.mensagem).body ∧
    campos.email <:+:
      (build_email cfg campos.nome campos.email campos.mensagem).body ∧
    campos.mensagem <:+:
      (build_email cfg campos.nome campos.email campos.mensagem).body := by
  have hm := missing_envs_eq_nil cfg hs hp hr
  refine ⟨?_, rfl, ?_, ?_, ?_⟩
  · cases outcome <;> simp [contato, hv, hm, send_email]
  · exact ⟨strL "Você recebeu uma nova mensagem pelo portfólio:\n\n" ++
        strL "Nome: ",
      strL "\n" ++ strL "E-mail: " ++ campos.email ++ strL "\n\n" ++
        strL "Mensagem:\n" ++ campos.mensagem ++ strL "\n",
      by simp [build_email, List.append_assoc]⟩
  · exact ⟨strL "Você recebeu uma nova mensagem pelo portfólio:\n\n" ++
        strL "Nome: " ++ campos.nome ++ strL "\n" ++ strL "E-mail: ",
      strL "\n\n" ++ strL "Mensagem:\n" ++ campos.mensagem ++ strL "\n",
      by simp [build_email, List.append_assoc]⟩
  · exact ⟨strL "Você recebeu uma nova mensagem pelo portfólio:\n\n" ++
        strL "Nome: " ++ campos.nome ++ strL "\n" ++ strL "E-mail: " ++
        campos.email ++ strL "\n\n" ++ strL "Mensagem:\n",
      strL "\n",
      by simp [build_email, List.append_assoc]⟩

/-- Claim C1 witness: for the submission `{nome:"Ana",
email:"ana@example.com", mensagem:"Olá"}` under a complete configuration,
exactly one dispatch is attempted and the built body contains "Ana",
"ana@example.com" and "Olá". -/
theorem contato_valid_dispatches_once_witness :
    validate_contact_fields cfgFull anaData = Except.ok anaCampos ∧
    cfgFull.EMAIL_SENDER ≠ [] ∧
    (contato cfgFull (RequestBody.json anaData) SendOutcome.success).attempts =
      [build_email cfgFull (strL "Ana") (strL "ana@example.com")
        (strL "Olá")] ∧
    strL "Ana" <:+:
      (build_email cfgFull (strL "Ana") (strL "ana@example.com")
        (strL "Olá")).body ∧
    strL "ana@example.com" <:+:
      (build_email cfgFull (strL "Ana") (strL "ana@example.com")
        (strL "Olá")).body ∧
    strL "Olá" <:+:
      (build_email cfgFull (strL "Ana") (strL "ana@example.com")
        (strL "Olá")).body := by
  have h := contato_valid_dispatches_once cfgFull anaData anaCampos
    SendOutcome.success (by decide) (by decide) (by decide) (by decide)
  exact ⟨by decide, by decide, h.1, h.2.2.1, h.2.2.2.1, h.2.2.2.2⟩

end Portfolio
